/-
Verification of the lead aggregation and scoring pipeline of the
ranger-lead-agent repository (a roofing lead-generation assistant).

The repository's pipeline code is shallowly embedded below:
  * the contact-completeness scoring rubric (src/agent.py, SYSTEM_PROMPT),
  * the property priority heuristic (src/schemas/models.py, PropertyRecord),
  * the Lead / LeadRow data model and the Lead-to-row projection
    (src/agent.py `_lead_to_row`, src/tools/output.py `LeadRow`),
  * the export writer (src/tools/output.py `write_leads_impl`),
  * skip-trace vendor selection (src/tools/skip_trace.py `skip_trace_impl`),
  * weather-alert classification (src/tools/weather.py `get_nws_alerts_impl`),
  * the deduplicator / aggregator (modelled from the spec; the repository
    delegates it to the LLM orchestrator and no code under src implements it).

Python strings are embedded as Lean `String` (with `.lower()` modelled by
mapping `Char.toLower`); Python `Optional[T]` as `Option T`; Python `int`
as `Int`; Python truthiness of ints and strings is modelled explicitly
(`0` and `""` are falsy).  Effectful code (file system, network) is
modelled by explicit environment records, with an uncaught Python
exception represented as `Except.error`.
-/

import Mathlib

namespace Ranger

/-! ## Python string primitives -/

/-- Python `s.lower()`, as a list of characters. -/
def pyLower (s : String) : List Char :=
  s.data.map Char.toLower

/-- Python `s.lower()`, as a string. -/
def pyLowerStr (s : String) : String :=
  ⟨s.data.map Char.toLower⟩

/-- Python `s.strip()`: drop leading and trailing whitespace. -/
def pyStrip (s : String) : String :=
  ⟨((s.data.dropWhile Char.isWhitespace).reverse.dropWhile
      Char.isWhitespace).reverse⟩

/-- Python substring containment `nee in hay` on character lists. -/
def listContains : List Char → List Char → Bool
  | hay, nee =>
    nee.isPrefixOf hay ||
      match hay with
      | [] => false
      | _ :: t => listContains t nee

/-! ## Contact-completeness scorer (SYSTEM_PROMPT rubric)

Modelled from the spec: the contact-completeness scorer is executed by the
LLM orchestrator following `SYSTEM_PROMPT` in src/agent.py
("Phone: 40 | Email: 10 | Address: 10 | Website: 10 | Licensed: 15 |
Reviews: 15 / Qualified if >= 50"); no deterministic code path in the
repository implements it.  The six boolean signals are external inputs. -/

/-- The six boolean signals the rubric scores. -/
structure LeadSignals where
  phone : Bool
  email : Bool
  address : Bool
  website : Bool
  licensed : Bool
  reviews : Bool
deriving DecidableEq, Repr

/-- Modelled from the spec: sum of the applicable fixed signal weights,
clamped to [0,100] (SYSTEM_PROMPT scoring rubric; the scorer itself runs
inside the LLM orchestrator, outside src). -/
def scoreLead (s : LeadSignals) : Int :=
  let total : Int :=
    (if s.phone then 40 else 0) + (if s.email then 10 else 0) +
    (if s.address then 10 else 0) + (if s.website then 10 else 0) +
    (if s.licensed then 15 else 0) + (if s.reviews then 15 else 0)
  max 0 (min 100 total)

/-- Modelled from the spec: the fixed qualification threshold
("Qualified if >= 50"). -/
def qualifiedOf (score : Int) : Bool :=
  score ≥ 50

/-! ## PropertyRecord and its priority heuristic (src/schemas/models.py) -/

/-- Structure `PropertyRecord` from src/schemas/models.py. -/
structure PropertyRecord where
  address : String
  city : Option String := none
  state : Option String := none
  zip_code : Option String := none
  year_built : Option Int := none
  sqft : Option Int := none
  property_type : Option String := none
  last_permit_date : Option String := none
  last_permit_type : Option String := none
  data_source : String
deriving DecidableEq, Repr

/-- Property `PropertyRecord.priority_score` from src/schemas/models.py, with
`datetime.now().year` passed explicitly as `nowYear`.  Python truthiness
is preserved: `if self.year_built:` is false for `None` and for `0`, and
`if self.last_permit_type and ...` is false for `None` and `""`. -/
def priority_score (nowYear : Int) (p : PropertyRecord) : Int :=
  let s1 : Int := 50 +
    (match p.year_built with
     | none => 0
     | some y =>
       if y ≠ 0 then
         let age := nowYear - y
         if age > 25 then 30
         else if age > 20 then 20
         else if age > 15 then 10
         else if age < 5 then -20
         else 0
       else 0)
  let s2 : Int := s1 +
    (match p.last_permit_type with
     | none => 0
     | some t =>
       if t ≠ "" ∧ listContains (pyLower t) (pyLower "roof") then -30 else 0)
  max 0 (min 100 s2)

/-- The property priority score exactly as claim C3 words it: "if
year_built is known" (no nonzero caveat), age adjustments, roof-permit
deduction, clamp.  Written from the claim's words, to compare with
`priority_score`, which is written from the code. -/
def claimC3_priority_score (nowYear : Int) (p : PropertyRecord) : Int :=
  let s1 : Int := 50 +
    (match p.year_built with
     | none => 0
     | some y =>
       let age := nowYear - y
       if age > 25 then 30
       else if age > 20 then 20
       else if age > 15 then 10
       else if age < 5 then -20
       else 0)
  let s2 : Int := s1 +
    (match p.last_permit_type with
     | none => 0
     | some t =>
       if listContains (pyLower t) (pyLower "roof") then -30 else 0)
  max 0 (min 100 s2)

/-- The property priority score as claim C3 stands after amendment: the
age adjustment applies only when year_built is known *and nonzero*
(Python truthiness); everything else as the claim words it. -/
def amendedC3_priority_score (nowYear : Int) (p : PropertyRecord) : Int :=
  let s1 : Int := 50 +
    (match p.year_built with
     | none => 0
     | some y =>
       if y = 0 then 0
       else
         let age := nowYear - y
         if age > 25 then 30
         else if age > 20 then 20
         else if age > 15 then 10
         else if age < 5 then -20
         else 0)
  let s2 : Int := s1 +
    (match p.last_permit_type with
     | none => 0
     | some t =>
       if listContains (pyLower t) (pyLower "roof") then -30 else 0)
  max 0 (min 100 s2)

/-! ## The Lead data model (src/agent.py) and LeadRow (src/tools/output.py) -/

/-- Structure `Lead` from src/agent.py, fields in declaration order.  The pydantic
constraint `score: int = Field(ge=0, le=100)` is the predicate
`leadScoreValid` below. -/
structure Lead where
  name : Option String := none
  address : Option String := none
  city : Option String := none
  state : Option String := none
  zip : Option String := none
  phone : Option String := none
  phone_available : Bool := false
  email : Option String := none
  website : Option String := none
  type : String
  score : Int
  qualified : Bool
  reason : String
  evidence_urls : List String := []
  storm_context : Option String := none
  year_built : Option Int := none
  role : Option String := none
  notes : Option String := none
deriving DecidableEq, Repr

/-- The pydantic field validator `score: int = Field(ge=0, le=100)` on
`Lead` (src/agent.py). -/
def leadScoreValid (l : Lead) : Prop :=
  0 ≤ l.score ∧ l.score ≤ 100

/-- Structure `LeadRow` from src/tools/output.py, fields in declaration order; every
field is `Optional` with default `None`. -/
structure LeadRow where
  name : Option String := none
  type : Option String := none
  score : Option Int := none
  qualified : Option Bool := none
  reason : Option String := none
  evidence_urls : Option String := none
  phone : Option String := none
  email : Option String := none
  website : Option String := none
  city : Option String := none
  state : Option String := none
  zip_code : Option String := none
  address : Option String := none
  owner_name : Option String := none
  role : Option String := none
  notes : Option String := none
  year_built : Option Int := none
  created_at : Option String := none
deriving DecidableEq, Repr

/-- Python `"|".join(urls)`. -/
def joinPipe (urls : List String) : String :=
  String.intercalate "|" urls

/-- Function `_lead_to_row` from src/agent.py: `lead.model_dump()`, join
`evidence_urls` with `"|"`, rename `zip` to `zip_code`, then
`LeadRow(**data)`.  Pydantic ignores extra constructor fields by default, silently dropping the
`phone_available` and `storm_context` entries, which are not `LeadRow`
fields; `owner_name` and `created_at` take their `None` defaults. -/
def _lead_to_row (l : Lead) : LeadRow :=
  { name := l.name,
    type := some l.type,
    score := some l.score,
    qualified := some l.qualified,
    reason := some l.reason,
    evidence_urls := some (joinPipe l.evidence_urls),
    phone := l.phone,
    email := l.email,
    website := l.website,
    city := l.city,
    state := l.state,
    zip_code := l.zip,
    address := l.address,
    owner_name := none,
    role := l.role,
    notes := l.notes,
    year_built := l.year_built,
    created_at := none }

/-- Modelled from the spec: re-parsing an exported row back into a `Lead`
("a `Lead` exported to a row and re-parsed"); no inverse exists in the
repository.  `evidence_urls` is reconstructed by splitting on `"|"`;
fields of `Lead` that `LeadRow` does not carry (`phone_available`,
`storm_context`) take the `Lead` defaults. -/
def row_to_lead (r : LeadRow) : Lead :=
  { name := r.name,
    address := r.address,
    city := r.city,
    state := r.state,
    zip := r.zip_code,
    phone := r.phone,
    phone_available := false,
    email := r.email,
    website := r.website,
    type := r.type.getD "",
    score := r.score.getD 0,
    qualified := r.qualified.getD false,
    reason := r.reason.getD "",
    evidence_urls := (r.evidence_urls.getD "").splitOn "|",
    storm_context := none,
    year_built := r.year_built,
    role := r.role,
    notes := r.notes }

/-- A concrete lead used to exhibit the information loss of
`_lead_to_row` (has a storm context). -/
def c4LeadA : Lead :=
  { name := some "Jane Doe", phone := some "555-0101", phone_available := true,
    type := "storm", score := 60, qualified := true,
    reason := "phone + address", address := some "1 Oak St",
    storm_context := some "Hail 2026-05-01", evidence_urls := ["https://a.example"] }

/-- The same lead with `storm_context` and `phone_available` changed:
`_lead_to_row` maps it to the same row as `c4LeadA`. -/
def c4LeadB : Lead :=
  { name := some "Jane Doe", phone := some "555-0101", phone_available := false,
    type := "storm", score := 60, qualified := true,
    reason := "phone + address", address := some "1 Oak St",
    storm_context := none, evidence_urls := ["https://a.example"] }

/-! ## Export writer (src/tools/output.py, `write_leads_impl`) -/

/-- The keys of `row.model_dump(exclude_none=True)`: names of the
non-`None` fields of a `LeadRow`, in field declaration order. -/
def rowKeys (r : LeadRow) : List String :=
  (if r.name.isSome then ["name"] else []) ++
  (if r.type.isSome then ["type"] else []) ++
  (if r.score.isSome then ["score"] else []) ++
  (if r.qualified.isSome then ["qualified"] else []) ++
  (if r.reason.isSome then ["reason"] else []) ++
  (if r.evidence_urls.isSome then ["evidence_urls"] else []) ++
  (if r.phone.isSome then ["phone"] else []) ++
  (if r.email.isSome then ["email"] else []) ++
  (if r.website.isSome then ["website"] else []) ++
  (if r.city.isSome then ["city"] else []) ++
  (if r.state.isSome then ["state"] else []) ++
  (if r.zip_code.isSome then ["zip_code"] else []) ++
  (if r.address.isSome then ["address"] else []) ++
  (if r.owner_name.isSome then ["owner_name"] else []) ++
  (if r.role.isSome then ["role"] else []) ++
  (if r.notes.isSome then ["notes"] else []) ++
  (if r.year_built.isSome then ["year_built"] else []) ++
  (if r.created_at.isSome then ["created_at"] else [])

/-- The inner loop of the fieldnames computation: append each key of one
row that is not already present. -/
def addKeys (acc : List String) : List String → List String
  | [] => acc
  | k :: t => addKeys (if k ∈ acc then acc else acc ++ [k]) t

/-- The outer `fieldnames` loop of `write_leads_impl`, carrying the
accumulated list. -/
def fieldnamesAux (acc : List String) : List LeadRow → List String
  | [] => acc
  | r :: t => fieldnamesAux (addKeys acc (rowKeys r)) t

/-- The `fieldnames` computation of `write_leads_impl`: first-seen union
of the non-`None` keys across all rows. -/
def fieldnamesOf (rows : List LeadRow) : List String :=
  fieldnamesAux [] rows

/-- The file-system environment `write_leads_impl` runs against:
whether `os.makedirs(output_dir, exist_ok=True)` succeeds, whether the
output file can be opened/written, whether pandas is importable, the
`OUTPUT_DIR` value, the formatted timestamp, and the message of the
OS error raised on a failed write. -/
structure FsEnv where
  canMakeDir : Bool
  canWrite : Bool
  hasPandas : Bool
  outputDir : String := "output"
  timestamp : String := "20260101_000000"
  writeErrorMsg : String := "Permission denied"
deriving DecidableEq, Repr

/-- The `format` literal of `write_leads_impl` (`"csv"` or `"xlsx"`). -/
inductive PyFormat where
  | csv
  | xlsx
deriving DecidableEq, Repr

/-- Structure `WriteLeadsResponse` from src/tools/output.py. -/
structure WriteLeadsResponse where
  success : Bool
  filepath : Option String := none
  format : Option String := none
  rows_written : Nat := 0
  columns : List String := []
  error : Option String := none
  fallback : Option String := none
deriving DecidableEq, Repr

/-- Function `write_leads_impl` from src/tools/output.py.  The result is
`Except.error` when a Python exception escapes the function (only
`os.makedirs` runs outside the `try` block), and otherwise the returned
`WriteLeadsResponse` paired with the header of the file written
(`none` when no file is written).  The pandas `DataFrame` column order for
xlsx coincides with the csv `fieldnames` loop (first-seen union). -/
def write_leads_impl (env : FsEnv) (rows : List LeadRow) (filename : String)
    (format : PyFormat) : Except String (WriteLeadsResponse × Option (List String)) :=
  if rows = [] then
    .ok ({ success := false, error := some "No rows to write" }, none)
  else if env.canMakeDir = false then
    .error "os.makedirs: cannot create output directory"
  else
    let stripped := (filename.replace ".csv" "").replace ".xlsx" ""
    let base := env.outputDir ++ "/" ++ stripped ++ "_" ++ env.timestamp
    match format with
    | .xlsx =>
      if env.hasPandas = false then
        .ok ({ success := false,
               error := some "Excel requires pandas: pip install pandas openpyxl",
               fallback := some "Use format='csv' instead" }, none)
      else if env.canWrite = false then
        .ok ({ success := false, error := some env.writeErrorMsg }, none)
      else
        .ok ({ success := true,
               filepath := some (base ++ ".xlsx"),
               format := some "xlsx",
               rows_written := rows.length,
               columns := match rows with | [] => [] | r :: _ => rowKeys r },
             some (fieldnamesOf rows))
    | .csv =>
      if env.canWrite = false then
        .ok ({ success := false, error := some env.writeErrorMsg }, none)
      else
        .ok ({ success := true,
               filepath := some (base ++ ".csv"),
               format := some "csv",
               rows_written := rows.length,
               columns := match rows with | [] => [] | r :: _ => rowKeys r },
             some (fieldnamesOf rows))

/-- The header of the file written by a `write_leads_impl` outcome
(`none` when no file was written or an exception escaped). -/
def writtenHeader
    (res : Except String (WriteLeadsResponse × Option (List String))) :
    Option (List String) :=
  match res with
  | .ok (_, hdr) => hdr
  | .error _ => none

/-- The `columns` field of a returned `WriteLeadsResponse` (`none` when an
exception escaped). -/
def responseColumns
    (res : Except String (WriteLeadsResponse × Option (List String))) :
    Option (List String) :=
  match res with
  | .ok (resp, _) => some resp.columns
  | .error _ => none

/-- The `success` field of a returned `WriteLeadsResponse` (`none` when an
exception escaped). -/
def responseSuccess
    (res : Except String (WriteLeadsResponse × Option (List String))) :
    Option Bool :=
  match res with
  | .ok (resp, _) => some resp.success
  | .error _ => none

/-- The fixed priority prefix that claim C7 asserts for the CSV column
order.  Written from the claim's words, to compare with the
`fieldnamesOf` loop, which is written from the code. -/
def claimC7_priority : List String :=
  ["name", "phone", "email", "address", "city", "state", "type", "score",
   "qualified", "website"]

/-- The header claim C7 predicts: priority-listed fields first (in
priority order), then the remaining fields in first-seen order. -/
def claimC7_header (rows : List LeadRow) : List String :=
  let seen := fieldnamesOf rows
  claimC7_priority.filter (fun k => k ∈ seen) ++
    seen.filter (fun k => k ∉ claimC7_priority)

/-- A fully-permissive file-system environment (directory creatable, file
writable, pandas importable). -/
def envOK : FsEnv :=
  { canMakeDir := true, canWrite := true, hasPandas := true }

/-- A row with only `name`, `type` and `phone` set: the code emits its
columns in `LeadRow` declaration order (`name, type, phone`), while claim
C7's priority list demands `name, phone, type`. -/
def c7Row : LeadRow :=
  { name := some "Jane Doe", type := some "middleman", phone := some "555-0101" }

/-- A row with only `name` set (first row of the C10 omission instance). -/
def c10RowA : LeadRow :=
  { name := some "Jane Doe" }

/-- A row with `name` and `phone` set (second row of the C10 omission
instance: its `phone` column is in the header but not in `columns`). -/
def c10RowB : LeadRow :=
  { name := some "John Roe", phone := some "555-0102" }

/-! ## Skip-trace vendor selection (src/tools/skip_trace.py) -/

/-- Structure `SkipTraceResult` from src/tools/skip_trace.py (the float
`confidence` field is embedded as a rational). -/
structure SkipTraceResult where
  success : Bool
  address : String
  owner_name : Option String := none
  phone : Option String := none
  phone_type : Option String := none
  email : Option String := none
  confidence : Option ℚ := none
  provider : Option String := none
  error : Option String := none
  configured : Bool := true
deriving DecidableEq, Repr

/-- The environment variables `skip_trace_impl` reads (each raw value,
with `""` for an unset variable, matching `os.getenv(..., "")`). -/
structure SkipEnv where
  provider : String := ""
  batchKey : String := ""
  reiskipKey : String := ""
deriving DecidableEq, Repr

/-- The `placeholder_values` set from src/tools/skip_trace.py. -/
def placeholder_values : List String :=
  ["", "your-key-here", "your-api-key", "your_api_key", "xxx", "placeholder"]

/-- Credential cleaning in `skip_trace_impl`: strip, then blank the key if
its lowercase form is a placeholder. -/
def cleanKey (k : String) : String :=
  let s := pyStrip k
  if pyLowerStr s ∈ placeholder_values then "" else s

/-- Function `skip_trace_impl` from src/tools/skip_trace.py.  The two vendor
back-ends perform network calls, so their outcomes are abstracted as the
parameters `netBatch` and `netReiskip` (the `SkipTraceResult` each vendor
function would return for this address); the selection logic and the
graceful unconfigured result are the code's own. -/
def skip_trace_impl (netBatch netReiskip : SkipTraceResult) (env : SkipEnv)
    (address city state zip_code : String) : SkipTraceResult :=
  let provider := (pyStrip (pyLowerStr env.provider))
  let batch_key := cleanKey env.batchKey
  let reiskip_key := cleanKey env.reiskipKey
  if provider = "batchskiptracing" ∧ batch_key ≠ "" then netBatch
  else if provider = "reiskip" ∧ reiskip_key ≠ "" then netReiskip
  else if batch_key ≠ "" then netBatch
  else if reiskip_key ≠ "" then netReiskip
  else
    { success := false,
      address := address ++ ", " ++ city ++ ", " ++ state ++ " " ++ zip_code,
      phone := none,
      owner_name := none,
      error := some "No skip trace provider configured. Set SKIP_TRACE_PROVIDER and API key in .env",
      configured := false }

/-! ## Weather-alert classification (src/tools/weather.py) -/

/-- The `properties` object of one GeoJSON feature returned by the NWS
API, as read by `get_nws_alerts_impl` (`props.get(...)`). -/
structure AlertProps where
  id : Option String := none
  event : Option String := none
  severity : Option String := none
  urgency : Option String := none
  headline : Option String := none
  description : Option String := none
  affectedZones : List String := []
  effective : Option String := none
  expires : Option String := none
  senderName : Option String := none
deriving DecidableEq, Repr

/-- Structure `Alert` from src/tools/weather.py. -/
structure Alert where
  id : Option String := none
  event : String
  severity : String
  urgency : Option String := none
  headline : Option String := none
  description : Option String := none
  affected_zones : List String := []
  effective : Option String := none
  expires : Option String := none
  sender : Option String := none
deriving DecidableEq, Repr

/-- Structure `NWSAlertsResponse` from src/tools/weather.py. -/
structure NWSAlertsResponse where
  success : Bool
  area : String
  total_alerts : Nat := 0
  alerts : List Alert := []
  roofing_relevant_alerts : List Alert := []
  roofing_relevant_count : Nat := 0
  source : String := "National Weather Service"
  error : Option String := none
deriving DecidableEq, Repr

/-- Constant `ROOFING_EVENTS` from src/tools/weather.py. -/
def ROOFING_EVENTS : List String :=
  ["Severe Thunderstorm", "Tornado", "Hail", "Wind", "Hurricane",
   "Tropical Storm", "High Wind"]

/-- The `Alert(...)` construction inside the feature loop of
`get_nws_alerts_impl`: defaulted event/severity, description defaulted to
`""` and truncated to 500 characters. -/
def mkAlert (props : AlertProps) : Alert :=
  { id := props.id,
    event := props.event.getD "Unknown",
    severity := props.severity.getD "Unknown",
    urgency := props.urgency,
    headline := props.headline,
    description := some ((props.description.getD "").take 500),
    affected_zones := props.affectedZones,
    effective := props.effective,
    expires := props.expires,
    sender := props.senderName }

/-- The roofing-relevance test of `get_nws_alerts_impl`:
`any(evt.lower() in a.event.lower() for evt in ROOFING_EVENTS)`. -/
def isRoofingRelevant (event : String) : Bool :=
  ROOFING_EVENTS.any (fun evt => listContains (pyLower event) (pyLower evt))

/-- The success path of `get_nws_alerts_impl` after the HTTP response has
been parsed into `features`: keep the first 15 features, build alerts,
filter the roofing-relevant ones. -/
def get_nws_alerts_success (area : String) (features : List AlertProps) :
    NWSAlertsResponse :=
  let alerts := (features.take 15).map mkAlert
  let relevant := alerts.filter (fun a => isRoofingRelevant a.event)
  { success := true,
    area := area,
    total_alerts := features.length,
    alerts := alerts,
    roofing_relevant_alerts := relevant,
    roofing_relevant_count := relevant.length,
    error := none }

/-! ## Deduplicator / Aggregator

Modelled from the spec: the repository has no deduplication code (the LLM
orchestrator folds leads into the running set), so the identity key, the
merge rule and the aggregation fold are modelled from spec §4.4:
"Identity key for a lead: normalized (name, phone) if phone present, else
normalized (address, city, state).  When two leads share an identity key,
merge by preferring the lead with the higher score, but union the
evidence_urls of both and retain the most complete (non-null) value for
each other field." -/

/-- Modelled from the spec: string normalization for identity keys
(lowercase, trimmed). -/
def normStr (s : String) : String :=
  pyStrip (pyLowerStr s)

/-- Normalization lifted to an optional field. -/
def normOpt (o : Option String) : Option String :=
  o.map normStr

/-- Modelled from the spec: the identity key of a lead — normalized
(name, phone) when a phone is present, else normalized
(address, city, state). -/
inductive LeadKey where
  | byPhone (name phone : Option String)
  | byAddr (address city state : Option String)
deriving DecidableEq, Repr

/-- The identity key of a lead (spec §4.4). -/
def leadKey (l : Lead) : LeadKey :=
  match l.phone with
  | some _ => .byPhone (normOpt l.name) (normOpt l.phone)
  | none => .byAddr (normOpt l.address) (normOpt l.city) (normOpt l.state)

/-- Spec rule "most complete (non-null) value": the first operand when non-null,
else the second. -/
def pickFirst {α : Type} (a b : Option α) : Option α :=
  match a with
  | some x => some x
  | none => b

/-- Union of evidence URL lists, keeping the base list's order and
appending the other list's new entries. -/
def unionUrls (a b : List String) : List String :=
  a ++ b.filter (fun u => ¬ u ∈ a)

/-- Modelled from the spec: merge a duplicate into a base lead — the base
keeps its score/qualification/type/reason, every optional field retains
the most complete non-null value, and evidence URLs are unioned. -/
def mergeInto (base other : Lead) : Lead :=
  { name := pickFirst base.name other.name,
    address := pickFirst base.address other.address,
    city := pickFirst base.city other.city,
    state := pickFirst base.state other.state,
    zip := pickFirst base.zip other.zip,
    phone := pickFirst base.phone other.phone,
    phone_available := base.phone_available,
    email := pickFirst base.email other.email,
    website := pickFirst base.website other.website,
    type := base.type,
    score := base.score,
    qualified := base.qualified,
    reason := base.reason,
    evidence_urls := unionUrls base.evidence_urls other.evidence_urls,
    storm_context := pickFirst base.storm_context other.storm_context,
    year_built := pickFirst base.year_built other.year_built,
    role := pickFirst base.role other.role,
    notes := pickFirst base.notes other.notes }

/-- Modelled from the spec: merging two duplicates prefers the lead with
the higher score as the base (ties keep the already-aggregated lead). -/
def mergeLeads (a b : Lead) : Lead :=
  if b.score > a.score then mergeInto b a else mergeInto a b

/-- Fold one lead into the running deduplicated set: merge into the first
lead sharing its identity key, else append. -/
def insertLead (acc : List Lead) (l : Lead) : List Lead :=
  match acc with
  | [] => [l]
  | r :: rest =>
    if leadKey r = leadKey l then mergeLeads r l :: rest
    else r :: insertLead rest l

/-- Modelled from the spec: aggregate a lead set by folding every lead
into the running deduplicated set. -/
def aggregateLeads (ls : List Lead) : List Lead :=
  ls.foldl insertLead []

/-! # Theorems -/

/-! ## C1 and C2: the contact-completeness scorer -/

/-- C1: every lead scored by the pipeline's rubric has an integer score in
[0,100] (matching the pydantic bound on `Lead.score`), and is qualified
exactly when the score is at least 50 — the fixed, non-configurable
threshold — for every combination of signal inputs. -/
theorem C1_score_bounds_and_threshold (s : LeadSignals)
    (l : Lead) (hs : l.score = scoreLead s)
    (hq : l.qualified = qualifiedOf (scoreLead s)) :
    leadScoreValid l ∧ (l.qualified = true ↔ 50 ≤ l.score) := by
  unfold leadScoreValid
  rw [hs, hq]
  obtain ⟨p, e, a, w, li, rv⟩ := s
  cases p <;> cases e <;> cases a <;> cases w <;> cases li <;> cases rv <;>
    exact ⟨by decide, by decide⟩

/-- Witness for C1 at a concrete lead: phone + address + website scores
60, within bounds and qualified. -/
theorem C1_witness :
    leadScoreValid
        { type := "middleman", score := scoreLead ⟨true, false, true, true, false, false⟩,
          qualified := qualifiedOf (scoreLead ⟨true, false, true, true, false, false⟩),
          reason := "phone + address + website" } ∧
      (({ type := "middleman", score := scoreLead ⟨true, false, true, true, false, false⟩,
          qualified := qualifiedOf (scoreLead ⟨true, false, true, true, false, false⟩),
          reason := "phone + address + website" } : Lead).qualified = true ↔
        50 ≤ ({ type := "middleman", score := scoreLead ⟨true, false, true, true, false, false⟩,
                qualified := qualifiedOf (scoreLead ⟨true, false, true, true, false, false⟩),
                reason := "phone + address + website" } : Lead).score) :=
  C1_score_bounds_and_threshold ⟨true, false, true, true, false, false⟩ _ rfl rfl

/-- C2: the contact-completeness scorer is the clamped sum of the fixed
signal weights (phone 40, email 10, address 10, website 10, license 15,
reviews 15) with the fixed 50 threshold; a lead with phone, address and
website only scores exactly 60 and is qualified, and a lead with only an
email scores 10 and is not qualified. -/
theorem C2_rubric_and_scenarios :
    (∀ s : LeadSignals,
        scoreLead s =
          max 0 (min 100
            ((if s.phone then 40 else 0) + (if s.email then 10 else 0) +
             (if s.address then 10 else 0) + (if s.website then 10 else 0) +
             (if s.licensed then 15 else 0) + (if s.reviews then 15 else 0)))) ∧
    scoreLead ⟨true, false, true, true, false, false⟩ = 60 ∧
    qualifiedOf (scoreLead ⟨true, false, true, true, false, false⟩) = true ∧
    scoreLead ⟨false, true, false, false, false, false⟩ = 10 ∧
    qualifiedOf (scoreLead ⟨false, true, false, false, false, false⟩) = false := by
  refine ⟨fun s => rfl, by decide, by decide, by decide, by decide⟩

/-! ## C3: the property priority heuristic -/

/-- C3 counterexample: a property with `year_built = 0` — a "known"
year_built — evaluated at `nowYear = 2026`.  The claim's wording ("if
year_built is known, add 30 when estimated age > 25") demands score 80,
but the code's Python truthiness check `if self.year_built:` skips the age
adjustment for the falsy value 0, yielding 50. -/
theorem C3_counterexample :
    priority_score 2026
        { address := "1 Main St", year_built := some 0,
          data_source := "test" } = 50 ∧
    claimC3_priority_score 2026
        { address := "1 Main St", year_built := some 0,
          data_source := "test" } = 80 ∧
    priority_score 2026
        { address := "1 Main St", year_built := some 0,
          data_source := "test" } ≠
      claimC3_priority_score 2026
        { address := "1 Main St", year_built := some 0,
          data_source := "test" } := by
  refine ⟨rfl, rfl, by decide⟩

/-- Auxiliary: the empty string contains no nonempty substring, so the
Python truthiness guard on `last_permit_type` never changes the result. -/
theorem listContains_nil_roof :
    listContains (pyLower "") (pyLower "roof") = false := by decide

/-- Auxiliary: the code's `if y ≠ 0 then a else 0` agrees with the amended
claim's `if y = 0 then 0 else a`. -/
theorem yearGuard_eq (y : Int) (a : Int) :
    (if y ≠ 0 then a else 0) = (if y = 0 then 0 else a) := by
  by_cases h : y = 0 <;> simp [h]

/-- Auxiliary: the Python truthiness guard on the permit string is
redundant, because the empty string contains no substring "roof". -/
theorem permitGuard_eq (t : String) :
    (if t ≠ "" ∧ listContains (pyLower t) (pyLower "roof") then (-30 : Int) else 0) =
      (if listContains (pyLower t) (pyLower "roof") then (-30 : Int) else 0) := by
  by_cases he : t = ""
  · subst he
    simp [listContains_nil_roof]
  · simp [he]

/-- C3 (amended): for every `PropertyRecord` and current year, the code's
priority score equals the amended heuristic: start at 50; only when
year_built is known *and nonzero* (Python truthiness) add 30 when age >
25, else 20 when age > 20, else 10 when age > 15, else subtract 20 when
age < 5; subtract 30 when the most recent permit type contains "roof"
case-insensitively; clamp to [0,100]. -/
theorem C3_amended (nowYear : Int) (p : PropertyRecord) :
    priority_score nowYear p = amendedC3_priority_score nowYear p := by
  cases hy : p.year_built with
  | none =>
    cases ht : p.last_permit_type with
    | none => simp [priority_score, amendedC3_priority_score, hy, ht]
    | some t =>
      simp only [priority_score, amendedC3_priority_score, hy, ht]
      rw [permitGuard_eq]
  | some y =>
    cases ht : p.last_permit_type with
    | none =>
      simp only [priority_score, amendedC3_priority_score, hy, ht]
      rw [yearGuard_eq]
    | some t =>
      simp only [priority_score, amendedC3_priority_score, hy, ht]
      rw [yearGuard_eq, permitGuard_eq]

/-- Witness for C3 (amended) at a concrete record: a 30-year-old roof with
a fence permit scores identically under code and amended heuristic. -/
theorem C3_amended_witness :
    priority_score 2026
        { address := "1 Main St", year_built := some 1996,
          last_permit_type := some "fence", data_source := "t" } =
      amendedC3_priority_score 2026
        { address := "1 Main St", year_built := some 1996,
          last_permit_type := some "fence", data_source := "t" } :=
  C3_amended 2026
    { address := "1 Main St", year_built := some 1996,
      last_permit_type := some "fence", data_source := "t" }

/-! ## C4: the Lead-to-row round trip -/

/-- C4 counterexample: two distinct leads — differing in
`phone_available` and `storm_context`, fields `LeadRow` does not carry —
export to the *same* row, so the row projection loses fields other than
the join of `evidence_urls`, and no re-parse can recover them. -/
theorem C4_counterexample :
    _lead_to_row c4LeadA = _lead_to_row c4LeadB ∧
    c4LeadA ≠ c4LeadB ∧
    c4LeadA.phone_available ≠ c4LeadB.phone_available ∧
    c4LeadA.storm_context ≠ c4LeadB.storm_context := by
  refine ⟨rfl, by decide, by decide, by decide⟩

/-- C4 (amended): exporting a `Lead` to its row and re-parsing recovers
every field unchanged except `evidence_urls` (reconstructed by splitting
the pipe-joined export on `"|"`) and the two fields `LeadRow` does not
carry at all — `phone_available` and `storm_context` — which are dropped
by the projection and revert to their defaults (`false`, `None`). -/
theorem C4_amended (l : Lead) :
    row_to_lead (_lead_to_row l) =
      { l with
        evidence_urls := (joinPipe l.evidence_urls).splitOn "|",
        phone_available := false,
        storm_context := none } := by
  cases l
  rfl

/-! ## C9: weather-alert classification -/

/-- C9: an alert is roofing-relevant iff one of the seven fixed event
names occurs as a case-insensitive substring of its event field; the
relevant list returned by the alert tool is exactly the relevant subset of
the returned alerts; "Severe Thunderstorm Warning" is relevant and
"Flood Warning" is not. -/
theorem C9_roofing_relevance (area : String) (features : List AlertProps) :
    (∀ a, a ∈ (get_nws_alerts_success area features).roofing_relevant_alerts ↔
        a ∈ (get_nws_alerts_success area features).alerts ∧
          isRoofingRelevant a.event = true) ∧
    (∀ s, isRoofingRelevant s = true ↔
        ∃ e ∈ ROOFING_EVENTS, listContains (pyLower s) (pyLower e) = true) ∧
    ROOFING_EVENTS.length = 7 ∧
    isRoofingRelevant "Severe Thunderstorm Warning" = true ∧
    isRoofingRelevant "Flood Warning" = false := by
  refine ⟨fun a => ?_, fun s => ?_, rfl, by decide, by decide⟩
  · simp [get_nws_alerts_success, List.mem_filter]
  · simp [isRoofingRelevant, List.any_eq_true]

/-! ## C6, C7, C10: the export writer -/

/-- Shared shape of a successful CSV export: non-empty rows, creatable
directory, writable file. -/
theorem write_leads_csv_success (env : FsEnv) (r : LeadRow) (rest : List LeadRow)
    (filename : String) (h1 : env.canMakeDir = true) (h2 : env.canWrite = true) :
    write_leads_impl env (r :: rest) filename PyFormat.csv =
      .ok ({ success := true,
             filepath := some (env.outputDir ++ "/" ++
               ((filename.replace ".csv" "").replace ".xlsx" "") ++ "_" ++
               env.timestamp ++ ".csv"),
             format := some "csv",
             rows_written := (r :: rest).length,
             columns := rowKeys r },
           some (fieldnamesOf (r :: rest))) := by
  unfold write_leads_impl
  rw [if_neg (by simp), if_neg (by simp [h1])]
  simp [h2]

/-- C6 counterexample: with a non-empty row list and an output directory
that cannot be created, `write_leads_impl` raises (`os.makedirs` runs
outside the `try` block), instead of returning a
`WriteLeadsResponse` with `success=false`. -/
theorem C6_counterexample :
    write_leads_impl
        { canMakeDir := false, canWrite := false, hasPandas := true }
        [{ name := some "Jane Doe" }] "leads" PyFormat.csv =
      Except.error "os.makedirs: cannot create output directory" := rfl

/-- C6 (amended): `write_leads_impl` returns `success=false` with a
descriptive error and writes no file for an empty row list, and whenever
the output directory is creatable every failure inside the `try` block is
caught and reported the same way; but when the output directory cannot be
created, `os.makedirs` raises past the boundary. -/
theorem C6_amended (env : FsEnv) (rows : List LeadRow) (filename : String)
    (format : PyFormat) :
    (rows = [] → write_leads_impl env rows filename format =
        .ok ({ success := false, error := some "No rows to write" }, none)) ∧
    (env.canMakeDir = true →
      ∃ resp hdr, write_leads_impl env rows filename format = .ok (resp, hdr) ∧
        (resp.success = false → resp.error.isSome = true ∧ hdr = none)) := by
  constructor
  · intro h
    subst h
    rfl
  · intro hmk
    rcases rows with _ | ⟨r, rest⟩
    · exact ⟨_, _, rfl, fun _ => ⟨rfl, rfl⟩⟩
    · unfold write_leads_impl
      rw [if_neg (by simp), if_neg (by simp [hmk])]
      cases format <;> dsimp only
      · by_cases hw : env.canWrite = false
        · rw [if_pos hw]
          exact ⟨_, _, rfl, fun _ => ⟨rfl, rfl⟩⟩
        · rw [if_neg hw]
          exact ⟨_, _, rfl, fun h => by simp at h⟩
      · by_cases hp : env.hasPandas = false
        · rw [if_pos hp]
          exact ⟨_, _, rfl, fun _ => ⟨rfl, rfl⟩⟩
        · rw [if_neg hp]
          by_cases hw : env.canWrite = false
          · rw [if_pos hw]
            exact ⟨_, _, rfl, fun _ => ⟨rfl, rfl⟩⟩
          · rw [if_neg hw]
            exact ⟨_, _, rfl, fun h => by simp at h⟩

/-- Witness for C6 (amended): exporting zero rows returns `success=false`
with a descriptive error and writes no file. -/
theorem C6_amended_witness :
    write_leads_impl envOK [] "leads" PyFormat.csv =
      .ok ({ success := false, error := some "No rows to write" }, none) :=
  (C6_amended envOK [] "leads" PyFormat.csv).1 rfl

/-- Membership in the inner fieldnames loop. -/
theorem mem_addKeys (k : String) (ks acc : List String) :
    k ∈ addKeys acc ks ↔ k ∈ acc ∨ k ∈ ks := by
  induction ks generalizing acc with
  | nil => simp [addKeys]
  | cons k' t ih =>
    rw [addKeys, ih]
    by_cases h : k' ∈ acc
    · rw [if_pos h]
      simp only [List.mem_cons]
      constructor
      · rintro (hk | hk)
        · exact Or.inl hk
        · exact Or.inr (Or.inr hk)
      · rintro (hk | hk | hk)
        · exact Or.inl hk
        · exact Or.inl (hk ▸ h)
        · exact Or.inr hk
    · rw [if_neg h]
      simp only [List.mem_append, List.mem_singleton, List.mem_cons]
      tauto

/-- Membership in the outer fieldnames loop. -/
theorem mem_fieldnamesAux (k : String) (rows : List LeadRow) (acc : List String) :
    k ∈ fieldnamesAux acc rows ↔ k ∈ acc ∨ ∃ r ∈ rows, k ∈ rowKeys r := by
  induction rows generalizing acc with
  | nil => simp [fieldnamesAux]
  | cons r t ih =>
    rw [fieldnamesAux, ih, mem_addKeys]
    simp only [List.mem_cons]
    constructor
    · rintro ((hk | hk) | ⟨r', hr', hk⟩)
      · exact Or.inl hk
      · exact Or.inr ⟨r, Or.inl rfl, hk⟩
      · exact Or.inr ⟨r', Or.inr hr', hk⟩
    · rintro (hk | ⟨r', hr' | hr', hk⟩)
      · exact Or.inl (Or.inl hk)
      · exact Or.inl (Or.inr (hr' ▸ hk))
      · exact Or.inr ⟨r', hr', hk⟩

/-- C7 counterexample: a row with only `name`, `type` and `phone` set.
The code emits the header in `LeadRow` declaration order
(`name, type, phone`), while the claim's fixed priority list demands
`name, phone, type`; the header `write_leads_impl` produces disagrees with
the claim's predicted header. -/
theorem C7_counterexample :
    fieldnamesOf [c7Row] = ["name", "type", "phone"] ∧
    claimC7_header [c7Row] = ["name", "phone", "type"] ∧
    fieldnamesOf [c7Row] ≠ claimC7_header [c7Row] ∧
    writtenHeader (write_leads_impl envOK [c7Row] "leads" PyFormat.csv) =
      some ["name", "type", "phone"] ∧
    responseColumns (write_leads_impl envOK [c7Row] "leads" PyFormat.csv) =
      some ["name", "type", "phone"] := by
  refine ⟨by decide, by decide, by decide, rfl, rfl⟩

/-- C7 (amended): for every non-empty row list (creatable directory,
writable file), the CSV header produced by `write_leads_impl` is
deterministic: the non-`None` keys of each row in `LeadRow` field
declaration order, merged first-seen across rows — no priority
reordering; a key appears in the header iff some row has that field
non-`None`. -/
theorem C7_amended (env : FsEnv) (r : LeadRow) (rest : List LeadRow)
    (filename : String) (h1 : env.canMakeDir = true) (h2 : env.canWrite = true) :
    (∃ resp, write_leads_impl env (r :: rest) filename PyFormat.csv =
        .ok (resp, some (fieldnamesOf (r :: rest)))) ∧
    ∀ k, k ∈ fieldnamesOf (r :: rest) ↔ ∃ row ∈ r :: rest, k ∈ rowKeys row := by
  constructor
  · exact ⟨_, write_leads_csv_success env r rest filename h1 h2⟩
  · intro k
    rw [fieldnamesOf, mem_fieldnamesAux]
    simp

/-- Witness for C7 (amended) at a concrete row list. -/
theorem C7_amended_witness :
    (∃ resp, write_leads_impl envOK [c7Row] "leads" PyFormat.csv =
        .ok (resp, some (fieldnamesOf [c7Row]))) ∧
    ∀ k, k ∈ fieldnamesOf [c7Row] ↔ ∃ row ∈ [c7Row], k ∈ rowKeys row :=
  C7_amended envOK c7Row [] "leads" rfl rfl

/-- C10: on a successful CSV write of a non-empty row list, the `columns`
field of the response is computed from the first row alone (its non-`None`
keys), while the written header is the first-seen union across all rows;
on the concrete pair `c10RowA`/`c10RowB` the response omits the `phone`
column that the written header contains. -/
theorem C10_columns_first_row_only (env : FsEnv) (r : LeadRow)
    (rest : List LeadRow) (filename : String)
    (h1 : env.canMakeDir = true) (h2 : env.canWrite = true) :
    (∃ resp, write_leads_impl env (r :: rest) filename PyFormat.csv =
        .ok (resp, some (fieldnamesOf (r :: rest))) ∧
        resp.columns = rowKeys r) ∧
    responseSuccess (write_leads_impl envOK [c10RowA, c10RowB] "f" PyFormat.csv) =
      some true ∧
    responseColumns (write_leads_impl envOK [c10RowA, c10RowB] "f" PyFormat.csv) =
      some ["name"] ∧
    writtenHeader (write_leads_impl envOK [c10RowA, c10RowB] "f" PyFormat.csv) =
      some ["name", "phone"] ∧
    "phone" ∈ (["name", "phone"] : List String) ∧
    "phone" ∉ (["name"] : List String) := by
  refine ⟨⟨_, write_leads_csv_success env r rest filename h1 h2, rfl⟩,
    rfl, rfl, rfl, by decide, by decide⟩

/-- Witness for C10 at a concrete environment and row list. -/
theorem C10_witness :
    ∃ resp, write_leads_impl envOK [c10RowA] "f" PyFormat.csv =
        .ok (resp, some (fieldnamesOf [c10RowA])) ∧
        resp.columns = rowKeys c10RowA :=
  (C10_columns_first_row_only envOK c10RowA [] "f" rfl rfl).1

/-! ## C8: skip-trace vendor selection -/

/-- C8: vendor selection is a pure function of configuration with the
stated precedence — the explicitly named vendor when its cleaned
credential is configured, else the first vendor with any configured
credential — and with no usable credential the lookup returns the
graceful `success=false, configured=false, phone=None` result instead of
raising; placeholder credential strings are treated as absent by the
cleaning step. -/
theorem C8_vendor_selection (netBatch netReiskip : SkipTraceResult)
    (env : SkipEnv) (address city state zip_code : String) :
    ((pyStrip (pyLowerStr env.provider) = "batchskiptracing" ∧
        cleanKey env.batchKey ≠ "") →
      skip_trace_impl netBatch netReiskip env address city state zip_code =
        netBatch) ∧
    ((pyStrip (pyLowerStr env.provider) = "reiskip" ∧
        cleanKey env.reiskipKey ≠ "") →
      skip_trace_impl netBatch netReiskip env address city state zip_code =
        netReiskip) ∧
    (¬(pyStrip (pyLowerStr env.provider) = "reiskip" ∧
        cleanKey env.reiskipKey ≠ "") →
      cleanKey env.batchKey ≠ "" →
      skip_trace_impl netBatch netReiskip env address city state zip_code =
        netBatch) ∧
    (cleanKey env.batchKey = "" → cleanKey env.reiskipKey ≠ "" →
      skip_trace_impl netBatch netReiskip env address city state zip_code =
        netReiskip) ∧
    (cleanKey env.batchKey = "" → cleanKey env.reiskipKey = "" →
      skip_trace_impl netBatch netReiskip env address city state zip_code =
        { success := false,
          address := address ++ ", " ++ city ++ ", " ++ state ++ " " ++ zip_code,
          phone := none,
          owner_name := none,
          error := some "No skip trace provider configured. Set SKIP_TRACE_PROVIDER and API key in .env",
          configured := false }) ∧
    cleanKey "" = "" ∧
    cleanKey "your-key-here" = "" ∧
    cleanKey " XXX " = "" ∧
    cleanKey "Placeholder" = "" ∧
    cleanKey "your_api_key" = "" := by
  refine ⟨?_, ?_, ?_, ?_, ?_, rfl, by decide, by decide, by decide, by decide⟩
  · rintro ⟨h1, h2⟩
    simp [skip_trace_impl, h1, h2]
  · rintro ⟨h1, h2⟩
    simp [skip_trace_impl, h1, h2]
  · intro h1 h2
    unfold skip_trace_impl
    by_cases hb : pyStrip (pyLowerStr env.provider) = "batchskiptracing" ∧
        cleanKey env.batchKey ≠ ""
    · rw [if_pos hb]
    · rw [if_neg hb, if_neg h1, if_pos h2]
  · intro h1 h2
    unfold skip_trace_impl
    rw [if_neg (by simp [h1]), ]
    by_cases hr : pyStrip (pyLowerStr env.provider) = "reiskip"
    · rw [if_pos ⟨hr, h2⟩]
    · rw [if_neg (by simp [hr]), if_neg (by simp [h1]), if_pos h2]
  · intro h1 h2
    unfold skip_trace_impl
    rw [if_neg (by simp [h1]), if_neg (by simp [h2]),
      if_neg (by simp [h1]), if_neg (by simp [h2])]

/-- Witness for C8: with no provider named, a placeholder batch key and a
whitespace-plus-placeholder REISkip key, the lookup returns the graceful
unconfigured result with `phone=None`. -/
theorem C8_witness :
    skip_trace_impl { success := true, address := "n/a" }
        { success := true, address := "n/a" }
        { provider := "", batchKey := "your-key-here", reiskipKey := " xxx " }
        "123 Oak Street" "Austin" "TX" "78701" =
      { success := false,
        address := "123 Oak Street, Austin, TX 78701",
        phone := none,
        owner_name := none,
        error := some "No skip trace provider configured. Set SKIP_TRACE_PROVIDER and API key in .env",
        configured := false } := by
  have h := (C8_vendor_selection { success := true, address := "n/a" }
    { success := true, address := "n/a" }
    { provider := "", batchKey := "your-key-here", reiskipKey := " xxx " }
    "123 Oak Street" "Austin" "TX" "78701").2.2.2.2.1 (by decide) (by decide)
  simpa using h

/-! ## C5: deduplication is idempotent -/

/-- Reduction of `pickFirst` on a present first field. -/
theorem pickFirst_some {α : Type} (x : α) (b : Option α) :
    pickFirst (some x) b = some x := rfl

/-- Reduction of `pickFirst` on an absent first field. -/
theorem pickFirst_none {α : Type} (b : Option α) :
    pickFirst none b = b := rfl

/-- When two optional fields normalize alike, preferring the first's
non-null value just returns the first field. -/
theorem pickFirst_eq_of_normOpt_eq (a b : Option String)
    (h : normOpt a = normOpt b) : pickFirst a b = a := by
  cases a with
  | some x => rfl
  | none =>
    cases b with
    | some y => simp [normOpt] at h
    | none => rfl

/-- Merging a duplicate into a base lead with the same identity key does
not change the identity key. -/
theorem leadKey_mergeInto (a b : Lead) (h : leadKey a = leadKey b) :
    leadKey (mergeInto a b) = leadKey a := by
  cases ha : a.phone with
  | some pa =>
    cases hb : b.phone with
    | some pb =>
      simp only [leadKey, ha, hb] at h
      injection h with hn hp
      have hname := pickFirst_eq_of_normOpt_eq a.name b.name hn
      simp [leadKey, mergeInto, ha, hb, pickFirst_some, hname]
    | none => simp [leadKey, ha, hb] at h
  | none =>
    cases hb : b.phone with
    | some pb => simp [leadKey, ha, hb] at h
    | none =>
      simp only [leadKey, ha, hb] at h
      injection h with h1 h2 h3
      have haddr := pickFirst_eq_of_normOpt_eq a.address b.address h1
      have hcity := pickFirst_eq_of_normOpt_eq a.city b.city h2
      have hstate := pickFirst_eq_of_normOpt_eq a.state b.state h3
      simp [leadKey, mergeInto, ha, hb, pickFirst_none, haddr, hcity, hstate]

/-- Merging two duplicates (base chosen by score) does not change the
identity key. -/
theorem leadKey_mergeLeads (a b : Lead) (h : leadKey a = leadKey b) :
    leadKey (mergeLeads a b) = leadKey a := by
  unfold mergeLeads
  by_cases hs : b.score > a.score
  · rw [if_pos hs, leadKey_mergeInto b a h.symm]
    exact h.symm
  · rw [if_neg hs]
    exact leadKey_mergeInto a b h

/-- Inserting a lead either merges in place (keys unchanged) or appends
its key at the end. -/
theorem insertLead_keys (l : Lead) (acc : List Lead) :
    (insertLead acc l).map leadKey =
      if leadKey l ∈ acc.map leadKey then acc.map leadKey
      else acc.map leadKey ++ [leadKey l] := by
  induction acc with
  | nil => simp [insertLead]
  | cons r rest ih =>
    by_cases hk : leadKey r = leadKey l
    · rw [insertLead, if_pos hk]
      simp [leadKey_mergeLeads r l hk, hk]
    · rw [insertLead, if_neg hk]
      by_cases hm : leadKey l ∈ rest.map leadKey
      · simp only [List.map_cons, ih, if_pos hm, List.mem_cons]
        rw [if_pos (Or.inr hm)]
      · simp only [List.map_cons, ih, if_neg hm, List.mem_cons]
        have hnotin : ¬(leadKey l = leadKey r ∨ leadKey l ∈ rest.map leadKey) := by
          rintro (hc | hc)
          · exact hk hc.symm
          · exact hm hc
        rw [if_neg hnotin, List.cons_append]

/-- Inserting a lead whose key is absent appends it. -/
theorem insertLead_not_mem (l : Lead) (acc : List Lead)
    (h : leadKey l ∉ acc.map leadKey) : insertLead acc l = acc ++ [l] := by
  induction acc with
  | nil => rfl
  | cons r rest ih =>
    simp only [List.map_cons, List.mem_cons] at h
    push_neg at h
    rw [insertLead, if_neg (fun hc => h.1 hc.symm), ih h.2]
    rfl

/-- Folding leads into an accumulator with pairwise-distinct keys keeps
the keys pairwise distinct. -/
theorem foldl_insertLead_nodup (ls : List Lead) (acc : List Lead)
    (h : (acc.map leadKey).Nodup) :
    ((ls.foldl insertLead acc).map leadKey).Nodup := by
  induction ls generalizing acc with
  | nil => simpa using h
  | cons l t ih =>
    rw [List.foldl_cons]
    apply ih
    rw [insertLead_keys]
    by_cases hm : leadKey l ∈ acc.map leadKey
    · rwa [if_pos hm]
    · rw [if_neg hm]
      simp [List.nodup_append, h, hm]

/-- Folding a list whose keys are disjoint from the accumulator's and
pairwise distinct appends it unchanged. -/
theorem foldl_insertLead_of_nodup (A : List Lead) (acc : List Lead)
    (h : ((acc ++ A).map leadKey).Nodup) :
    A.foldl insertLead acc = acc ++ A := by
  induction A generalizing acc with
  | nil => simp
  | cons l t ih =>
    rw [List.map_append] at h
    have hd := (List.nodup_append.mp h).2.2
    have hnot : leadKey l ∉ acc.map leadKey := fun hmem => hd hmem (by simp)
    rw [List.foldl_cons, insertLead_not_mem l acc hnot]
    have h' : (((acc ++ [l]) ++ t).map leadKey).Nodup := by
      rw [List.append_assoc, List.singleton_append, List.map_append]
      exact h
    rw [ih (acc ++ [l]) h', List.append_assoc, List.singleton_append]

/-- C5: deduplication is idempotent — aggregating an already-aggregated
lead set (duplicates identified by the identity key, merged by preferring
the higher score, unioning evidence URLs, and keeping the most complete
non-null fields) returns it unchanged. -/
theorem C5_dedup_idempotent (ls : List Lead) :
    aggregateLeads (aggregateLeads ls) = aggregateLeads ls := by
  have h1 : ((aggregateLeads ls).map leadKey).Nodup :=
    foldl_insertLead_nodup ls [] (by simp)
  have h2 := foldl_insertLead_of_nodup (aggregateLeads ls) [] (by simpa using h1)
  simpa [aggregateLeads] using h2

end Ranger
